import Mathlib

/-!
Shallow embedding of the `yt-high-quality-downloader` repository
(`src/downloader.py` and `src/app.py`) and proofs about its claims.

Host-dependent effects (filesystem existence checks, `shutil.which`,
path canonicalisation, the yt-dlp engine invocation) are passed in
explicitly as parameters, so every definition below is a total,
executable function of the host state it reads.
-/

set_option autoImplicit false

namespace YtHQ

/-- A filesystem path, modelled as a directory part plus a final
component (`name`).  `Path.with_name` in Python replaces the final
component; `str(p.parent)` is the directory part. -/
structure RPath where
  dir : String
  name : String
deriving DecidableEq, Repr

/-- `Path.with_name`: replace the final path component. -/
def RPath.with_name (p : RPath) (n : String) : RPath :=
  { p with name := n }

/-- A media-file path as handled by `download_highest_quality`:
`stem` is everything up to the last suffix, `ext` the last suffix
(including its leading dot, empty when there is none). -/
structure FName where
  stem : String
  ext : String
deriving DecidableEq, Repr

/-- `Path.with_suffix`: replace (or attach) the last suffix. -/
def FName.with_suffix (f : FName) (e : String) : FName :=
  { f with ext := e }

/-- `path.name` of a media file (basename; the `stem` field of this
model abstracts the directory-plus-stem portion). -/
def FName.basename (f : FName) : String :=
  f.stem ++ f.ext

/-- The Python exceptions observable from the two source modules:
`yt_dlp.utils.DownloadError`, `FileNotFoundError` (used both for the
missing-muxer and the missing-result failure, distinguished only by
message), and any other exception (name, message). -/
inductive PyExc where
  | downloadError (msg : String)
  | fileNotFound (msg : String)
  | otherExc (name : String) (msg : String)
deriving DecidableEq, Repr

/-- `str(exc)`: the human-readable text of an exception. -/
def PyExc.text : PyExc → String
  | .downloadError m => m
  | .fileNotFound m => m
  | .otherExc _ m => m

/-- Whether the exception is a `yt_dlp.utils.DownloadError`. -/
def PyExc.isDownloadError : PyExc → Bool
  | .downloadError _ => true
  | _ => false

/-- Substring containment, modelling Python's `pat in s`. -/
def strContainsSubstr (s pat : String) : Bool :=
  s.data.tails.any (fun t => pat.data.isPrefixOf t)

/-- The options dictionary handed to `yt_dlp.YoutubeDL` by
`build_downloader` (`src/downloader.py` lines 111-152).  The
`progress_hooks` entry is a callback and is modelled separately (see
`printer_run`). -/
structure YdlOpts where
  format : String
  noplaylist : Bool
  outtmpl : String
  quiet : Bool
  no_warnings : Bool
  no_color : Bool
  concurrent_fragment_downloads : Nat
  continuedl : Bool
  retries : Nat
  fragment_retries : Nat
  http_chunk_size : Nat
  merge_output_format : Option String
  postprocessors : List String
  postprocessor_args : List String
  ffmpeg_location : Option String
  ffprobe_location : Option String
  external_downloader : Option String
  external_downloader_args : List String
deriving DecidableEq, Repr

/-- The format selector default of `build_downloader`. -/
def default_format_selector : String :=
  "bv*[ext=mp4]+ba[ext=m4a]/bestvideo[ext=mp4]+bestaudio[ext=m4a]/best[ext=mp4]/best"

/-- The relaxed selector used by the muxer-free fallback attempt in
`download_highest_quality`. -/
def relaxed_format_selector : String :=
  "best[ext=mp4][acodec!=none][vcodec!=none]/best"

/-- Message of the `FileNotFoundError` raised by `build_downloader`
when merging is requested but no ffmpeg was resolved. -/
def ffmpeg_missing_message : String :=
  "ffmpeg executable not found. Install ffmpeg and ensure it is on PATH to merge high-quality streams."

/-- Message of the `FileNotFoundError` raised by
`download_highest_quality` when no output file can be located. -/
def result_missing_message : String :=
  "Download finished, but the merged file could not be located. Ensure ffmpeg is installed and retry."

/-- `build_downloader` (`src/downloader.py` lines 90-154): builds the
engine options, raising `FileNotFoundError` when `merge_to_mp4` is
requested but `RESOLVED_FFMPEG` is `None`.  The process-wide resolved
tool locations and the aria2c lookup are passed explicitly. -/
def build_downloader (resolved_ffmpeg resolved_ffprobe : Option RPath)
    (aria2c_executable : Option String) (output_dir : String)
    (format_selector : String) (merge_to_mp4 : Bool) : Except PyExc YdlOpts :=
  let base : YdlOpts :=
    { format := format_selector
      noplaylist := true
      outtmpl := output_dir ++ "/%(title)s.%(ext)s"
      quiet := false
      no_warnings := true
      no_color := true
      concurrent_fragment_downloads := 10
      continuedl := true
      retries := 10
      fragment_retries := 10
      http_chunk_size := 10 * 1024 * 1024
      merge_output_format := none
      postprocessors := []
      postprocessor_args := []
      ffmpeg_location := none
      ffprobe_location := none
      external_downloader := none
      external_downloader_args := [] }
  let opts :=
    if merge_to_mp4 && resolved_ffmpeg.isSome then
      { base with
          merge_output_format := some "mp4"
          postprocessors := ["FFmpegVideoConvertor", "FFmpegMetadata"]
          postprocessor_args := ["-movflags", "faststart"]
          ffmpeg_location := resolved_ffmpeg.map RPath.dir
          ffprobe_location := resolved_ffprobe.map RPath.dir }
    else base
  if merge_to_mp4 && resolved_ffmpeg.isNone then
    .error (.fileNotFound ffmpeg_missing_message)
  else
    .ok <|
      if aria2c_executable.isSome then
        { opts with
            external_downloader := some "aria2c"
            external_downloader_args := ["-x", "16", "-k", "1M", "-j", "16"] }
      else opts

/-- One entry of the engine's `requested_downloads` manifest; its
`filepath` key may be absent. -/
structure RequestedItem where
  filepath : Option FName
deriving DecidableEq, Repr

/-- What a successful engine invocation yields to
`download_highest_quality`: the info dict's `requested_downloads`
manifest together with `ydl.prepare_filename(info)`. -/
structure EngineResult where
  prepared : FName
  requested_downloads : List RequestedItem
deriving DecidableEq, Repr

/-- The `requested_downloads` scan of `download_highest_quality`
(`src/downloader.py` lines 202-206): the first entry whose `filepath`
is present and exists on disk. -/
def first_existing (fs_exists : FName → Bool) (items : List RequestedItem) :
    Option FName :=
  items.findSome? fun item =>
    match item.filepath with
    | some p => if fs_exists p then some p else none
    | none => none

/-- Result resolution of `download_highest_quality`
(`src/downloader.py` lines 194-211): prefer the prepared filename with
its suffix replaced by `.mp4`, then the prepared filename itself, then
the first existing `requested_downloads` entry, else raise
`FileNotFoundError`. -/
def resolve_result (fs_exists : FName → Bool) (info : EngineResult) :
    Except PyExc FName :=
  let merged_candidate := info.prepared.with_suffix ".mp4"
  if fs_exists merged_candidate then .ok merged_candidate
  else if fs_exists info.prepared then .ok info.prepared
  else
    match first_existing fs_exists info.requested_downloads with
    | some p => .ok p
    | none => .error (.fileNotFound result_missing_message)

/-- The first attempt of `download_highest_quality`
(`src/downloader.py` lines 173-176): build the merging downloader and
invoke the engine; either step may fail. -/
def first_attempt (resolved_ffmpeg resolved_ffprobe : Option RPath)
    (aria2c_executable : Option String) (output_dir : String)
    (engine : YdlOpts → Except PyExc EngineResult) : Except PyExc EngineResult :=
  match build_downloader resolved_ffmpeg resolved_ffprobe aria2c_executable
      output_dir default_format_selector true with
  | .error e => .error e
  | .ok opts => engine opts

/-- The fallback attempt of `download_highest_quality`
(`src/downloader.py` lines 185-192): relaxed selector, no muxing. -/
def fallback_attempt (resolved_ffmpeg resolved_ffprobe : Option RPath)
    (aria2c_executable : Option String) (output_dir : String)
    (engine : YdlOpts → Except PyExc EngineResult) : Except PyExc EngineResult :=
  match build_downloader resolved_ffmpeg resolved_ffprobe aria2c_executable
      output_dir relaxed_format_selector false with
  | .error e => .error e
  | .ok opts => engine opts

/-- `str.lower()` on one character (the model restricts Python's case
mapping to the ASCII range). -/
def py_lower_char (c : Char) : Char :=
  if 'A' ≤ c && c ≤ 'Z' then Char.ofNat (c.toNat + 32) else c

/-- `str.lower()`: lower-case a string. -/
def py_lower (s : String) : String :=
  ⟨s.data.map py_lower_char⟩

/-- The muxer-keyword test of the retry heuristic
(`src/downloader.py` line 179): does the error text contain "ffmpeg",
case-insensitively? -/
def muxer_keyword_hit (message : String) : Bool :=
  strContainsSubstr (py_lower message) "ffmpeg"

/-- `download_highest_quality` (`src/downloader.py` lines 157-211):
first attempt with muxing; on a `DownloadError` whose text mentions
ffmpeg, one fallback attempt without muxing; any other failure (and a
failed fallback) propagates; then result resolution on disk. -/
def download_highest_quality (resolved_ffmpeg resolved_ffprobe : Option RPath)
    (aria2c_executable : Option String) (output_dir : String)
    (engine : YdlOpts → Except PyExc EngineResult)
    (fs_exists : FName → Bool) : Except PyExc FName :=
  let attempt : Except PyExc EngineResult :=
    match first_attempt resolved_ffmpeg resolved_ffprobe aria2c_executable
        output_dir engine with
    | .ok r => .ok r
    | .error (.downloadError msg) =>
        if muxer_keyword_hit msg then
          fallback_attempt resolved_ffmpeg resolved_ffprobe aria2c_executable
            output_dir engine
        else .error (.downloadError msg)
    | .error e => .error e
  match attempt with
  | .error e => .error e
  | .ok info => resolve_result fs_exists info

/-- The host state read by the tool resolver (`src/downloader.py`
lines 17-73): the results of `shutil.which`, the filesystem existence
predicate, path canonicalisation (`Path.resolve`), and whether/what the
WinGet package tree contains.  `winget_package_dirs` are the directory
names matched by the `Gyan.FFmpeg*` glob; `winget_ffmpeg_glob d` is
the result of the `ffmpeg*/bin/ffmpeg.exe` glob inside directory `d`. -/
structure HostFS where
  which_ffmpeg : Option RPath
  which_ffprobe : Option RPath
  path_exists : RPath → Bool
  resolve_path : RPath → RPath
  winget_base_exists : Bool
  winget_package_dirs : List String
  winget_ffmpeg_glob : String → List RPath

/-- Insert into a descending list, modelling one step of
`sorted(..., reverse=True)`. -/
def insert_desc (x : String) : List String → List String
  | [] => [x]
  | y :: ys => if y ≤ x then x :: y :: ys else y :: insert_desc x ys

/-- `sorted(l, reverse=True)`: version directories, newest name first. -/
def sort_desc : List String → List String
  | [] => []
  | x :: xs => insert_desc x (sort_desc xs)

/-- `_find_winget_ffmpeg` (`src/downloader.py` lines 31-43): scan the
WinGet package directories newest-first and return the first ffmpeg
executable found, with its sibling `ffprobe.exe` when that exists. -/
def _find_winget_ffmpeg (fs : HostFS) : Option RPath × Option RPath :=
  if !fs.winget_base_exists then (none, none)
  else
    match (sort_desc fs.winget_package_dirs).findSome? (fun package_dir =>
        match fs.winget_ffmpeg_glob package_dir with
        | [] => none
        | p :: _ =>
            let ffmpeg_path := fs.resolve_path p
            let ffprobe_path := ffmpeg_path.with_name "ffprobe.exe"
            some (ffmpeg_path,
              if fs.path_exists ffprobe_path then some ffprobe_path else none)) with
    | some (fp, pr) => (some fp, pr)
    | none => (none, none)

/-- The fixed fallback location `C:/ffmpeg/bin/ffmpeg.exe`. -/
def common_ffmpeg_path : RPath :=
  { dir := "C:/ffmpeg/bin", name := "ffmpeg.exe" }

/-- The tail of `_resolve_external_tools` after the search-path probe
has failed (`src/downloader.py` lines 57-70): the WinGet tree, then
the fixed location, then "not found" together with whatever
`shutil.which` gave for ffprobe. -/
def _resolve_past_which (fs : HostFS) (ffprobe_path : Option RPath) :
    Option RPath × Option RPath :=
  match _find_winget_ffmpeg fs with
  | (some winget_ffmpeg, winget_ffprobe) => (some winget_ffmpeg, winget_ffprobe)
  | (none, _) =>
      if fs.path_exists common_ffmpeg_path then
        let fp := fs.resolve_path common_ffmpeg_path
        let pr :=
          match ffprobe_path with
          | some p => some p
          | none =>
              let candidate := fp.with_name "ffprobe.exe"
              if fs.path_exists candidate then some candidate else none
        (some fp, pr)
      else (none, ffprobe_path)

/-- `_resolve_external_tools` (`src/downloader.py` lines 46-70):
search path first, then the WinGet tree, then the fixed location;
absence is returned, never raised. -/
def _resolve_external_tools (fs : HostFS) : Option RPath × Option RPath :=
  let ffmpeg_path := fs.which_ffmpeg.map fs.resolve_path
  let ffprobe_path := fs.which_ffprobe.map fs.resolve_path
  match ffmpeg_path with
  | some fp =>
      if fs.path_exists fp then
        let pr :=
          match ffprobe_path with
          | some p => some p
          | none =>
              let candidate := fp.with_name "ffprobe.exe"
              if fs.path_exists candidate then some candidate else none
        (some fp, pr)
      else _resolve_past_which fs ffprobe_path
  | none => _resolve_past_which fs ffprobe_path

/-- Whether the search-path probe of `_resolve_external_tools`
succeeds: `shutil.which("ffmpeg")` returned a path whose resolution
exists. -/
def which_ffmpeg_hit (fs : HostFS) : Bool :=
  match fs.which_ffmpeg with
  | some fp => fs.path_exists (fs.resolve_path fp)
  | none => false

/-- The consecutive-duplicate filter `printer` inside
`download_highest_quality` (`src/downloader.py` lines 162-169), run
over a finite sequence of engine progress messages: a message equal to
`last_report` is dropped, any other is forwarded and becomes the new
`last_report`. -/
def printer_run (last_report : Option String) : List String → List String
  | [] => []
  | message :: rest =>
      if some message = last_report then printer_run last_report rest
      else message :: printer_run (some message) rest

/-! ## `src/app.py` -/

/-- The ASCII whitespace stripped by `str.strip()` (the model restricts
Python's whitespace classes to the ASCII range). -/
def is_py_space (c : Char) : Bool :=
  c = ' ' || c = '\t' || c = '\n' || c = '\r' || c = '\x0B' || c = '\x0C'

/-- `str.strip()`: drop leading and trailing whitespace. -/
def py_strip (s : String) : String :=
  ⟨((s.data.dropWhile is_py_space).reverse.dropWhile is_py_space).reverse⟩

/-- The observable response of the `/download` endpoint: a 400 client
error from `abort(400, ...)`, a 502 upstream error from
`abort(502, ...)`, or the streamed file attachment. -/
inductive GatewayResponse where
  | clientError (code : Nat) (message : String)
  | upstreamError (code : Nat) (message : String)
  | fileAttachment (download_name : String)
deriving DecidableEq, Repr

/-- Mapping an orchestrator outcome to the endpoint's response
(`src/app.py` lines 51-88): any exception becomes a 502 with its text,
success streams the file as an attachment named after it. -/
def response_of : Except PyExc FName → GatewayResponse
  | .error exc => .upstreamError 502 ("Failed to download video: " ++ exc.text)
  | .ok video_path => .fileAttachment video_path.basename

/-- `download_video` (`src/app.py` lines 45-88): trim the `url` form
field (absent field read as the empty string); reject a falsy result
with 400; otherwise run the orchestrator and map its outcome.  The
orchestrator is passed explicitly. -/
def download_video (form_url : Option String)
    (orchestrator : String → Except PyExc FName) : GatewayResponse :=
  let url := py_strip (form_url.getD "")
  if url = "" then .clientError 400 "Please provide a valid YouTube URL."
  else response_of (orchestrator url)

/-- A directory entry seen by one sweep tick: its path, whether it is
a regular file, its `st_mtime`, and whether `unlink` on it would
succeed (`False` models an `OSError`). -/
structure SweepFile where
  path : String
  is_file : Bool
  st_mtime : Int
  unlink_ok : Bool
deriving DecidableEq, Repr

/-- What the sweep loop body did with one entry. -/
inductive SweepAction where
  | skipped_not_file (path : String)
  | kept_young (path : String)
  | deleted (path : String)
  | failure_logged (path : String)
deriving DecidableEq, Repr

/-- The loop body of `_cleanup_downloads_background`
(`src/app.py` lines 23-32) on one directory entry: skip non-files,
skip entries younger than the interval, otherwise unlink, logging (and
swallowing) an `OSError`. -/
def sweep_file_action (now interval_seconds : Int) (f : SweepFile) : SweepAction :=
  if !f.is_file then .skipped_not_file f.path
  else if now - f.st_mtime < interval_seconds then .kept_young f.path
  else if f.unlink_ok then .deleted f.path
  else .failure_logged f.path

/-- One sweep tick of `_cleanup_downloads_background`: every entry of
the download directory is processed, failures notwithstanding. -/
def sweep_tick (now interval_seconds : Int) (files : List SweepFile) :
    List SweepAction :=
  files.map (sweep_file_action now interval_seconds)

/-- Outcome of one `video_path.unlink()` call inside the
post-response deleter: success, `FileNotFoundError`, or `OSError`. -/
inductive UnlinkOutcome where
  | ok
  | file_not_found
  | os_error
deriving DecidableEq, Repr

/-- How the post-response deleter finished. -/
inductive CleanupExit where
  | deleted_logged
  | already_gone
  | gave_up_logged
deriving DecidableEq, Repr

/-- What the post-response deleter did: how many `unlink` calls it
made and how it finished.  No constructor represents a raised
exception: the worker returns in every case. -/
structure CleanupReport where
  unlink_attempts : Nat
  exit : CleanupExit
deriving DecidableEq, Repr

/-- The retry loop of `remove_file._cleanup` (`src/app.py`
lines 66-78), from a given attempt index with a given number of loop
iterations left: `FileNotFoundError` returns quietly, success logs
and returns, `OSError` on the last attempt (index 4) logs and returns,
an earlier `OSError` backs off and retries.  The `0` base is the
for-loop running out of iterations; from the entry point
`remove_file_cleanup` it is unreachable because attempt 4 always
returns. -/
def cleanup_from (outcomes : Nat → UnlinkOutcome) (attempt : Nat) :
    Nat → CleanupReport
  | 0 => { unlink_attempts := attempt, exit := .gave_up_logged }
  | remaining + 1 =>
      match outcomes attempt with
      | .file_not_found => { unlink_attempts := attempt + 1, exit := .already_gone }
      | .ok => { unlink_attempts := attempt + 1, exit := .deleted_logged }
      | .os_error =>
          if attempt = 4 then
            { unlink_attempts := attempt + 1, exit := .gave_up_logged }
          else cleanup_from outcomes (attempt + 1) remaining

/-- `remove_file._cleanup`'s deletion loop: `for attempt in range(5)`.
`outcomes attempt` is what the `unlink` call at that attempt index
would do. -/
def remove_file_cleanup (outcomes : Nat → UnlinkOutcome) : CleanupReport :=
  cleanup_from outcomes 0 5

/-! ## Theorems -/

/-- Running the `printer` filter with last report `a` yields exactly
the tail of `List.destutter'` seeded with `a`. -/
theorem printer_run_cons_destutter (l : List String) :
    ∀ a : String, a :: printer_run (some a) l = List.destutter' (· ≠ ·) a l := by
  induction l with
  | nil => intro a; rfl
  | cons b t ih =>
      intro a
      by_cases h : b = a
      · subst h
        have hL : printer_run (some b) (b :: t) = printer_run (some b) t := by
          simp [printer_run]
        have hR : List.destutter' (· ≠ ·) b (b :: t) = List.destutter' (· ≠ ·) b t := by
          simp [List.destutter']
        rw [hL, hR]
        exact ih b
      · have hne : a ≠ b := fun hab => h hab.symm
        have hL : printer_run (some a) (b :: t) = b :: printer_run (some b) t := by
          simp [printer_run, h]
        have hR : List.destutter' (· ≠ ·) a (b :: t) = a :: List.destutter' (· ≠ ·) b t := by
          simp [List.destutter', hne]
        rw [hL, hR, ← ih b]

/-- C5: over any finite sequence of engine progress messages, the
deduplicating `printer` filter of `download_highest_quality` forwards
exactly the subsequence obtained by dropping each message equal to the
immediately preceding forwarded one (`List.destutter (· ≠ ·)`); the
forwarded sequence is an order-preserving subsequence of the input and
contains no two consecutive equal messages. -/
theorem printer_run_dedup (msgs : List String) :
    printer_run none msgs = msgs.destutter (· ≠ ·) ∧
    (printer_run none msgs).Sublist msgs ∧
    (printer_run none msgs).Chain' (· ≠ ·) := by
  have hd : printer_run none msgs = msgs.destutter (· ≠ ·) := by
    cases msgs with
    | nil => rfl
    | cons a t =>
        have hstep : printer_run none (a :: t) = a :: printer_run (some a) t := by
          simp [printer_run]
        rw [hstep, printer_run_cons_destutter]
        rfl
  refine ⟨hd, ?_, ?_⟩
  · rw [hd]
    exact List.destutter_sublist (fun a b => a ≠ b) msgs
  · rw [hd]
    exact List.destutter_is_chain' (fun a b => a ≠ b) msgs

/-- C1: contrary to the spec's fallback law, whenever the muxer is
reported absent (`RESOLVED_FFMPEG` is `None`), every call to
`download_highest_quality` raises the ToolMissing failure
(`FileNotFoundError` with the missing-ffmpeg message) to its caller:
`build_downloader` raises it on the very first attempt, before the
engine runs, and the `except` clause catches only `DownloadError`, so
the muxer-free fallback is never reached. -/
theorem download_highest_quality_muxer_absent_raises
    (resolved_ffprobe : Option RPath) (aria2c_executable : Option String)
    (output_dir : String) (engine : YdlOpts → Except PyExc EngineResult)
    (fs_exists : FName → Bool) :
    download_highest_quality none resolved_ffprobe aria2c_executable output_dir
      engine fs_exists = .error (.fileNotFound ffmpeg_missing_message) := by
  rfl

/-- C2: on a first-attempt failure of `download_highest_quality`, a
`DownloadError` whose text contains "ffmpeg" (case-insensitively)
triggers exactly one retry through `fallback_attempt`, whose
configuration uses the relaxed single-combined-stream selector and no
muxing options; a `DownloadError` without the keyword and any
non-`DownloadError` failure propagate unchanged; and a failure of the
single retry propagates as well. -/
theorem download_highest_quality_retry_policy
    (resolved_ffmpeg resolved_ffprobe : Option RPath)
    (aria2c_executable : Option String) (output_dir : String)
    (engine : YdlOpts → Except PyExc EngineResult) (fs_exists : FName → Bool)
    (e : PyExc)
    (hfail : first_attempt resolved_ffmpeg resolved_ffprobe aria2c_executable
        output_dir engine = .error e) :
    (∀ msg, e = .downloadError msg → muxer_keyword_hit msg = true →
        download_highest_quality resolved_ffmpeg resolved_ffprobe
            aria2c_executable output_dir engine fs_exists =
          match fallback_attempt resolved_ffmpeg resolved_ffprobe
              aria2c_executable output_dir engine with
          | .ok info => resolve_result fs_exists info
          | .error e2 => .error e2) ∧
    (∀ msg, e = .downloadError msg → muxer_keyword_hit msg = false →
        download_highest_quality resolved_ffmpeg resolved_ffprobe
          aria2c_executable output_dir engine fs_exists = .error e) ∧
    (e.isDownloadError = false →
        download_highest_quality resolved_ffmpeg resolved_ffprobe
          aria2c_executable output_dir engine fs_exists = .error e) ∧
    (∀ e2 msg, e = .downloadError msg → muxer_keyword_hit msg = true →
        fallback_attempt resolved_ffmpeg resolved_ffprobe aria2c_executable
            output_dir engine = .error e2 →
        download_highest_quality resolved_ffmpeg resolved_ffprobe
          aria2c_executable output_dir engine fs_exists = .error e2) ∧
    (∃ opts, build_downloader resolved_ffmpeg resolved_ffprobe
        aria2c_executable output_dir relaxed_format_selector false = .ok opts ∧
        opts.format = relaxed_format_selector ∧
        opts.merge_output_format = none ∧
        opts.postprocessors = [] ∧
        opts.postprocessor_args = [] ∧
        opts.ffmpeg_location = none) := by
  refine ⟨?_, ?_, ?_, ?_, ?_⟩
  · intro msg hmsg hhit
    subst hmsg
    cases hfb : fallback_attempt resolved_ffmpeg resolved_ffprobe
        aria2c_executable output_dir engine with
    | ok r => simp [download_highest_quality, hfail, hhit, hfb]
    | error e2 => simp [download_highest_quality, hfail, hhit, hfb]
  · intro msg hmsg hmiss
    subst hmsg
    simp [download_highest_quality, hfail, hmiss]
  · intro hnotdl
    cases e with
    | downloadError m => simp [PyExc.isDownloadError] at hnotdl
    | fileNotFound m => simp [download_highest_quality, hfail]
    | otherExc n m => simp [download_highest_quality, hfail]
  · intro e2 msg hmsg hhit hfb
    subst hmsg
    simp [download_highest_quality, hfail, hhit, hfb]
  · cases aria2c_executable with
    | none => exact ⟨_, rfl, rfl, rfl, rfl, rfl, rfl⟩
    | some s => exact ⟨_, rfl, rfl, rfl, rfl, rfl, rfl⟩

/-- C2 witness: a first attempt failing with an ffmpeg-keyed
`DownloadError` retries once without muxing, and the retry's own
`DownloadError` propagates to the caller. -/
theorem download_highest_quality_retry_policy_witness :
    download_highest_quality (some ⟨"/usr/bin", "ffmpeg"⟩) none none "downloads"
      (fun opts =>
        if opts.merge_output_format.isSome then
          .error (.downloadError "ERROR: ffmpeg exited with code 1")
        else .error (.downloadError "network unreachable"))
      (fun _ => false) = .error (.downloadError "network unreachable") := by
  have h := download_highest_quality_retry_policy (some ⟨"/usr/bin", "ffmpeg"⟩)
    none none "downloads"
    (fun opts =>
      if opts.merge_output_format.isSome then
        .error (.downloadError "ERROR: ffmpeg exited with code 1")
      else .error (.downloadError "network unreachable"))
    (fun _ => false) (.downloadError "ERROR: ffmpeg exited with code 1") (by rfl)
  exact h.2.2.2.1 (.downloadError "network unreachable")
    "ERROR: ffmpeg exited with code 1" rfl (by decide) (by rfl)

/-- C3: when the engine invocation inside `download_highest_quality`
succeeds, the returned path follows the resolution priority: the
prepared filename with suffix replaced by `.mp4` if that file exists,
else the prepared filename if it exists, else the first existing
`requested_downloads` entry, else the ResultMissing failure.  In
particular, when both the `.mp4` candidate and the prepared file
exist, the `.mp4` candidate wins. -/
theorem download_highest_quality_result_resolution
    (resolved_ffmpeg resolved_ffprobe : Option RPath)
    (aria2c_executable : Option String) (output_dir : String)
    (engine : YdlOpts → Except PyExc EngineResult) (fs_exists : FName → Bool)
    (info : EngineResult)
    (hok : first_attempt resolved_ffmpeg resolved_ffprobe aria2c_executable
        output_dir engine = .ok info) :
    download_highest_quality resolved_ffmpeg resolved_ffprobe aria2c_executable
        output_dir engine fs_exists = resolve_result fs_exists info ∧
    (fs_exists (info.prepared.with_suffix ".mp4") = true →
        resolve_result fs_exists info = .ok (info.prepared.with_suffix ".mp4")) ∧
    (fs_exists (info.prepared.with_suffix ".mp4") = false →
        fs_exists info.prepared = true →
        resolve_result fs_exists info = .ok info.prepared) ∧
    (∀ p, fs_exists (info.prepared.with_suffix ".mp4") = false →
        fs_exists info.prepared = false →
        first_existing fs_exists info.requested_downloads = some p →
        resolve_result fs_exists info = .ok p) ∧
    (fs_exists (info.prepared.with_suffix ".mp4") = false →
        fs_exists info.prepared = false →
        first_existing fs_exists info.requested_downloads = none →
        resolve_result fs_exists info =
          .error (.fileNotFound result_missing_message)) := by
  refine ⟨?_, ?_, ?_, ?_, ?_⟩
  · simp [download_highest_quality, hok]
  · intro hmp4
    simp [resolve_result, hmp4]
  · intro hmp4 hprep
    simp [resolve_result, hmp4, hprep]
  · intro p hmp4 hprep hfound
    simp [resolve_result, hmp4, hprep, hfound]
  · intro hmp4 hprep hnone
    simp [resolve_result, hmp4, hprep, hnone]

/-- C3 witness: with both the `.mp4` candidate and the prepared
`.webm` file on disk, the `.mp4` candidate is returned. -/
theorem download_highest_quality_result_resolution_witness :
    download_highest_quality (some ⟨"/usr/bin", "ffmpeg"⟩) none none "downloads"
      (fun _ => .ok ⟨⟨"downloads/video", ".webm"⟩, []⟩)
      (fun f => decide (f = ⟨"downloads/video", ".mp4"⟩) ||
        decide (f = ⟨"downloads/video", ".webm"⟩)) =
      .ok ⟨"downloads/video", ".mp4"⟩ := by
  have h := download_highest_quality_result_resolution (some ⟨"/usr/bin", "ffmpeg"⟩)
    none none "downloads" (fun _ => .ok ⟨⟨"downloads/video", ".webm"⟩, []⟩)
    (fun f => decide (f = ⟨"downloads/video", ".mp4"⟩) ||
      decide (f = ⟨"downloads/video", ".webm"⟩))
    ⟨⟨"downloads/video", ".webm"⟩, []⟩ (by rfl)
  exact h.1.trans (h.2.1 (by decide))

/-- C4: a `/download` request whose `url` form field is missing,
empty, or whitespace-only after trimming gets the 400 client error
with the fixed message, and the response does not depend on the
orchestrator (it is never invoked); a request whose trimmed `url` is
non-empty gets exactly the response determined by the orchestrator's
outcome on that trimmed URL. -/
theorem download_video_url_validation
    (form_url : Option String) (orchestrator : String → Except PyExc FName) :
    (py_strip (form_url.getD "") = "" →
        download_video form_url orchestrator =
          .clientError 400 "Please provide a valid YouTube URL." ∧
        ∀ orch2, download_video form_url orchestrator =
          download_video form_url orch2) ∧
    (py_strip (form_url.getD "") ≠ "" →
        download_video form_url orchestrator =
          response_of (orchestrator (py_strip (form_url.getD "")))) := by
  constructor
  · intro h
    refine ⟨by simp [download_video, h], ?_⟩
    intro orch2
    simp [download_video, h]
  · intro h
    simp [download_video, h]

/-- C4 witness: a whitespace-only URL is rejected with the 400
message, a non-empty trimmed URL reaches the orchestrator. -/
theorem download_video_url_validation_witness :
    download_video (some "   ") (fun _ => .error (.otherExc "RuntimeError" "boom")) =
      .clientError 400 "Please provide a valid YouTube URL." ∧
    download_video (some " https://youtu.be/x ")
        (fun _ => .ok ⟨"downloads/video", ".mp4"⟩) =
      .fileAttachment "downloads/video.mp4" := by
  constructor
  · exact ((download_video_url_validation (some "   ")
      (fun _ => .error (.otherExc "RuntimeError" "boom"))).1 (by decide)).1
  · have h := (download_video_url_validation (some " https://youtu.be/x ")
      (fun _ => .ok ⟨"downloads/video", ".mp4"⟩)).2 (by decide)
    exact h.trans rfl

/-- C6: on a sweep tick, every directory entry contributes exactly one
action (a failure never terminates the loop); a regular file strictly
older than the interval whose unlink succeeds is deleted; a regular
file strictly younger than the interval is left untouched; and an
unlink failure on an old regular file is only logged. -/
theorem sweep_tick_spec (now interval_seconds : Int) (files : List SweepFile)
    (f : SweepFile) (hmem : f ∈ files) :
    sweep_file_action now interval_seconds f ∈
      sweep_tick now interval_seconds files ∧
    (f.is_file = true → interval_seconds < now - f.st_mtime →
        f.unlink_ok = true →
        sweep_file_action now interval_seconds f = .deleted f.path) ∧
    (f.is_file = true → now - f.st_mtime < interval_seconds →
        sweep_file_action now interval_seconds f = .kept_young f.path) ∧
    (f.is_file = true → interval_seconds ≤ now - f.st_mtime →
        f.unlink_ok = false →
        sweep_file_action now interval_seconds f = .failure_logged f.path) ∧
    (sweep_tick now interval_seconds files).length = files.length := by
  refine ⟨List.mem_map_of_mem _ hmem, ?_, ?_, ?_, by simp [sweep_tick]⟩
  · intro hf hage hok
    have hnot : ¬(now - f.st_mtime < interval_seconds) := not_lt.mpr hage.le
    simp [sweep_file_action, hf, hnot, hok]
  · intro hf hage
    simp [sweep_file_action, hf, hage]
  · intro hf hage hok
    have hnot : ¬(now - f.st_mtime < interval_seconds) := not_lt.mpr hage
    simp [sweep_file_action, hf, hnot, hok]

/-- C6 witness: with a 300-second interval at time 1000, an old file
is deleted, a young file is kept, a stuck old file is only logged, and
all three entries are processed. -/
theorem sweep_tick_spec_witness :
    sweep_file_action 1000 300 ⟨"old.mp4", true, 100, true⟩ =
      .deleted "old.mp4" ∧
    sweep_file_action 1000 300 ⟨"new.mp4", true, 900, true⟩ =
      .kept_young "new.mp4" ∧
    sweep_file_action 1000 300 ⟨"stuck.mp4", true, 100, false⟩ =
      .failure_logged "stuck.mp4" ∧
    (sweep_tick 1000 300 [⟨"old.mp4", true, 100, true⟩,
        ⟨"new.mp4", true, 900, true⟩,
        ⟨"stuck.mp4", true, 100, false⟩]).length = 3 := by
  refine ⟨?_, ?_, ?_, ?_⟩
  · exact (sweep_tick_spec 1000 300 [⟨"old.mp4", true, 100, true⟩]
      ⟨"old.mp4", true, 100, true⟩ (by simp)).2.1 rfl (by decide) rfl
  · exact (sweep_tick_spec 1000 300 [⟨"new.mp4", true, 900, true⟩]
      ⟨"new.mp4", true, 900, true⟩ (by simp)).2.2.1 rfl (by decide)
  · exact (sweep_tick_spec 1000 300 [⟨"stuck.mp4", true, 100, false⟩]
      ⟨"stuck.mp4", true, 100, false⟩ (by simp)).2.2.2.1 rfl (by decide) rfl
  · exact ((sweep_tick_spec 1000 300 [⟨"old.mp4", true, 100, true⟩,
      ⟨"new.mp4", true, 900, true⟩, ⟨"stuck.mp4", true, 100, false⟩]
      ⟨"old.mp4", true, 100, true⟩ (by simp)).2.2.2.2).trans rfl

/-- The deletion loop makes at most `attempt + remaining` unlink
calls when entered at `attempt` with `remaining` iterations left. -/
theorem cleanup_from_attempts_le (outcomes : Nat → UnlinkOutcome) :
    ∀ (remaining attempt : Nat),
      (cleanup_from outcomes attempt remaining).unlink_attempts ≤
        attempt + remaining := by
  intro remaining
  induction remaining with
  | zero =>
      intro attempt
      simp [cleanup_from]
  | succ r ih =>
      intro attempt
      cases hout : outcomes attempt with
      | file_not_found =>
          simp only [cleanup_from, hout]
          omega
      | ok =>
          simp only [cleanup_from, hout]
          omega
      | os_error =>
          simp only [cleanup_from, hout]
          by_cases h4 : attempt = 4
          · rw [if_pos h4]
            show attempt + 1 ≤ attempt + (r + 1)
            omega
          · rw [if_neg h4]
            exact le_trans (ih (attempt + 1)) (by omega)

/-- An `OSError` before the last attempt makes the deletion loop back
off and continue with the next attempt index. -/
theorem cleanup_from_skip (outcomes : Nat → UnlinkOutcome)
    (r attempt : Nat) (h4 : attempt < 4) (hout : outcomes attempt = .os_error) :
    cleanup_from outcomes attempt (r + 1) =
      cleanup_from outcomes (attempt + 1) r := by
  simp [cleanup_from, hout, Nat.ne_of_lt h4]

/-- If the first `k` unlink calls all raise `OSError`, the deletion
loop reaches attempt index `k` with `5 - k` iterations left. -/
theorem cleanup_reach (outcomes : Nat → UnlinkOutcome) :
    ∀ k, k ≤ 4 → (∀ j, j < k → outcomes j = .os_error) →
      remove_file_cleanup outcomes = cleanup_from outcomes k (5 - k) := by
  intro k
  induction k with
  | zero => intro _ _; rfl
  | succ n ih =>
      intro hk hos
      have h1 : remove_file_cleanup outcomes = cleanup_from outcomes n (5 - n) :=
        ih (by omega) (fun j hj => hos j (by omega))
      have h2 : 5 - n = (5 - (n + 1)) + 1 := by omega
      rw [h1, h2, cleanup_from_skip outcomes _ n (by omega) (hos n (by omega))]

/-- C8: the post-response deleter makes at most 5 unlink attempts; a
`FileNotFoundError` (file already absent, possibly after some failed
attempts) ends the loop quietly; five consecutive `OSError`s end it
with a logged give-up — in every case it returns instead of raising.
The sweeper likewise only logs a failed unlink of a stale file. -/
theorem remove_file_cleanup_spec (outcomes : Nat → UnlinkOutcome) :
    (remove_file_cleanup outcomes).unlink_attempts ≤ 5 ∧
    (∀ k, k ≤ 4 → (∀ j, j < k → outcomes j = .os_error) →
        outcomes k = .file_not_found →
        remove_file_cleanup outcomes = ⟨k + 1, .already_gone⟩) ∧
    ((∀ j, j ≤ 4 → outcomes j = .os_error) →
        remove_file_cleanup outcomes = ⟨5, .gave_up_logged⟩) ∧
    (∀ (now interval_seconds : Int) (f : SweepFile), f.is_file = true →
        f.unlink_ok = false → interval_seconds ≤ now - f.st_mtime →
        sweep_file_action now interval_seconds f = .failure_logged f.path) := by
  refine ⟨?_, ?_, ?_, ?_⟩
  · have := cleanup_from_attempts_le outcomes 5 0
    simpa [remove_file_cleanup] using this
  · intro k hk hos hfnf
    have h1 := cleanup_reach outcomes k hk hos
    have h2 : 5 - k = (4 - k) + 1 := by omega
    rw [h1, h2]
    simp [cleanup_from, hfnf]
  · intro hos
    have h1 := cleanup_reach outcomes 4 (by omega) (fun j hj => hos j (by omega))
    rw [h1]
    simp [cleanup_from, hos 4 (by omega)]
  · intro now interval_seconds f hf hok hage
    have hnot : ¬(now - f.st_mtime < interval_seconds) := not_lt.mpr hage
    simp [sweep_file_action, hf, hnot, hok]

/-- C8 witness: five straight `OSError`s give up after exactly 5
attempts; an immediately absent file ends after 1 attempt with no
error; a failed sweep unlink is only logged. -/
theorem remove_file_cleanup_spec_witness :
    remove_file_cleanup (fun _ => .os_error) = ⟨5, .gave_up_logged⟩ ∧
    remove_file_cleanup (fun _ => .file_not_found) = ⟨1, .already_gone⟩ ∧
    sweep_file_action 2000 300 ⟨"gone.mp4", true, 100, false⟩ =
      .failure_logged "gone.mp4" := by
  refine ⟨?_, ?_, ?_⟩
  · exact (remove_file_cleanup_spec (fun _ => .os_error)).2.2.1 (fun j _ => rfl)
  · exact (remove_file_cleanup_spec (fun _ => .file_not_found)).2.1 0 (by omega)
      (fun j hj => absurd hj (Nat.not_lt_zero j)) rfl
  · exact (remove_file_cleanup_spec (fun _ => .os_error)).2.2.2 2000 300
      ⟨"gone.mp4", true, 100, false⟩ rfl rfl (by decide)

/-- Inserting into a descending list permutes consing. -/
theorem insert_desc_perm (x : String) :
    ∀ l : List String, List.Perm (insert_desc x l) (x :: l) := by
  intro l
  induction l with
  | nil => exact List.Perm.refl _
  | cons y ys ih =>
      by_cases hxy : y ≤ x
      · simp only [insert_desc, if_pos hxy]
        exact List.Perm.refl _
      · simp only [insert_desc, if_neg hxy]
        exact (List.Perm.cons y ih).trans (List.Perm.swap x y ys)

/-- `sort_desc` permutes its input. -/
theorem sort_desc_perm :
    ∀ l : List String, List.Perm (sort_desc l) l := by
  intro l
  induction l with
  | nil => exact List.Perm.refl _
  | cons x xs ih =>
      exact (insert_desc_perm x (sort_desc xs)).trans (List.Perm.cons x ih)

/-- Inserting into a descending list keeps it descending. -/
theorem insert_desc_sorted (x : String) :
    ∀ l : List String, l.Sorted (fun a b => b ≤ a) →
      (insert_desc x l).Sorted (fun a b => b ≤ a) := by
  intro l
  induction l with
  | nil =>
      intro _
      simp [insert_desc]
  | cons y ys ih =>
      intro hs
      have hy : ∀ b ∈ ys, b ≤ y := (List.sorted_cons.mp hs).1
      have hys : ys.Sorted (fun a b => b ≤ a) := (List.sorted_cons.mp hs).2
      by_cases hxy : y ≤ x
      · simp only [insert_desc, if_pos hxy]
        refine List.sorted_cons.mpr ⟨?_, hs⟩
        intro b hb
        rcases List.mem_cons.mp hb with hby | hbys
        · exact hby ▸ hxy
        · exact le_trans (hy b hbys) hxy
      · simp only [insert_desc, if_neg hxy]
        refine List.sorted_cons.mpr ⟨?_, ih hys⟩
        intro b hb
        have hb2 : b ∈ x :: ys := (insert_desc_perm x ys).mem_iff.mp hb
        rcases List.mem_cons.mp hb2 with hbx | hbys
        · exact hbx ▸ le_of_not_le hxy
        · exact hy b hbys

/-- `sort_desc` sorts descending: newest name first. -/
theorem sort_desc_sorted :
    ∀ l : List String, (sort_desc l).Sorted (fun a b => b ≤ a) := by
  intro l
  induction l with
  | nil => simp [sort_desc]
  | cons x xs ih => exact insert_desc_sorted x (sort_desc xs) ih

/-- C9: the tool resolver consults its candidates in order — the
executable search path, then the WinGet package tree scanned over the
matching version directories sorted newest-first, then the fixed
`C:/ffmpeg/bin` location — and for every host state it returns a pair
(with absent entries where nothing was found) instead of raising. -/
theorem resolve_external_tools_priority (fs : HostFS) :
    (which_ffmpeg_hit fs = true → ∀ fp, fs.which_ffmpeg = some fp →
        (_resolve_external_tools fs).1 = some (fs.resolve_path fp)) ∧
    (which_ffmpeg_hit fs = false → ∀ wfp wpr,
        _find_winget_ffmpeg fs = (some wfp, wpr) →
        _resolve_external_tools fs = (some wfp, wpr)) ∧
    (which_ffmpeg_hit fs = false → (_find_winget_ffmpeg fs).1 = none →
        fs.path_exists common_ffmpeg_path = true →
        (_resolve_external_tools fs).1 =
          some (fs.resolve_path common_ffmpeg_path)) ∧
    (which_ffmpeg_hit fs = false → (_find_winget_ffmpeg fs).1 = none →
        fs.path_exists common_ffmpeg_path = false →
        _resolve_external_tools fs =
          (none, fs.which_ffprobe.map fs.resolve_path)) ∧
    ((sort_desc fs.winget_package_dirs).Sorted (fun a b => b ≤ a) ∧
      List.Perm (sort_desc fs.winget_package_dirs) fs.winget_package_dirs) := by
  refine ⟨?_, ?_, ?_, ?_, sort_desc_sorted _, sort_desc_perm _⟩
  · intro hhit fp hfp
    have hex : fs.path_exists (fs.resolve_path fp) = true := by
      simpa [which_ffmpeg_hit, hfp] using hhit
    simp [_resolve_external_tools, hfp, hex]
  · intro hmiss wfp wpr hwg
    cases hfp : fs.which_ffmpeg with
    | none => simp [_resolve_external_tools, hfp, _resolve_past_which, hwg]
    | some fp =>
        have hex : fs.path_exists (fs.resolve_path fp) = false := by
          simpa [which_ffmpeg_hit, hfp] using hmiss
        simp [_resolve_external_tools, hfp, hex, _resolve_past_which, hwg]
  · intro hmiss hwg1 hcommon
    cases hwg : _find_winget_ffmpeg fs with
    | mk w1 w2 =>
        have hw1 : w1 = none := by rw [hwg] at hwg1; exact hwg1
        subst hw1
        cases hfp : fs.which_ffmpeg with
        | none =>
            simp [_resolve_external_tools, hfp, _resolve_past_which, hwg, hcommon]
        | some fp =>
            have hex : fs.path_exists (fs.resolve_path fp) = false := by
              simpa [which_ffmpeg_hit, hfp] using hmiss
            simp [_resolve_external_tools, hfp, hex, _resolve_past_which, hwg,
              hcommon]
  · intro hmiss hwg1 hcommon
    cases hwg : _find_winget_ffmpeg fs with
    | mk w1 w2 =>
        have hw1 : w1 = none := by rw [hwg] at hwg1; exact hwg1
        subst hw1
        cases hfp : fs.which_ffmpeg with
        | none =>
            simp [_resolve_external_tools, hfp, _resolve_past_which, hwg, hcommon]
        | some fp =>
            have hex : fs.path_exists (fs.resolve_path fp) = false := by
              simpa [which_ffmpeg_hit, hfp] using hmiss
            simp [_resolve_external_tools, hfp, hex, _resolve_past_which, hwg,
              hcommon]

/-- C9 witness: concrete hosts exercising each tier — search-path
hit, WinGet hit, fixed-location hit, and full miss. -/
theorem resolve_external_tools_priority_witness :
    (_resolve_external_tools
      { which_ffmpeg := some ⟨"/usr/bin", "ffmpeg"⟩
        which_ffprobe := none
        path_exists := fun _ => true
        resolve_path := id
        winget_base_exists := false
        winget_package_dirs := []
        winget_ffmpeg_glob := fun _ => [] }).1 = some ⟨"/usr/bin", "ffmpeg"⟩ ∧
    _resolve_external_tools
      { which_ffmpeg := none
        which_ffprobe := none
        path_exists := fun _ => false
        resolve_path := id
        winget_base_exists := true
        winget_package_dirs := ["Gyan.FFmpeg_7.1"]
        winget_ffmpeg_glob := fun _ => [⟨"Packages/Gyan.FFmpeg_7.1/bin", "ffmpeg.exe"⟩] } =
      (some ⟨"Packages/Gyan.FFmpeg_7.1/bin", "ffmpeg.exe"⟩, none) ∧
    (_resolve_external_tools
      { which_ffmpeg := none
        which_ffprobe := none
        path_exists := fun p => decide (p = common_ffmpeg_path)
        resolve_path := id
        winget_base_exists := false
        winget_package_dirs := []
        winget_ffmpeg_glob := fun _ => [] }).1 = some common_ffmpeg_path ∧
    _resolve_external_tools
      { which_ffmpeg := none
        which_ffprobe := some ⟨"/opt/bin", "ffprobe"⟩
        path_exists := fun _ => false
        resolve_path := id
        winget_base_exists := false
        winget_package_dirs := []
        winget_ffmpeg_glob := fun _ => [] } =
      (none, some ⟨"/opt/bin", "ffprobe"⟩) := by
  refine ⟨?_, ?_, ?_, ?_⟩
  · exact (resolve_external_tools_priority
      { which_ffmpeg := some ⟨"/usr/bin", "ffmpeg"⟩
        which_ffprobe := none
        path_exists := fun _ => true
        resolve_path := id
        winget_base_exists := false
        winget_package_dirs := []
        winget_ffmpeg_glob := fun _ => [] }).1 rfl ⟨"/usr/bin", "ffmpeg"⟩ rfl
  · exact (resolve_external_tools_priority
      { which_ffmpeg := none
        which_ffprobe := none
        path_exists := fun _ => false
        resolve_path := id
        winget_base_exists := true
        winget_package_dirs := ["Gyan.FFmpeg_7.1"]
        winget_ffmpeg_glob := fun _ =>
          [⟨"Packages/Gyan.FFmpeg_7.1/bin", "ffmpeg.exe"⟩] }).2.1 rfl
      ⟨"Packages/Gyan.FFmpeg_7.1/bin", "ffmpeg.exe"⟩ none rfl
  · exact (resolve_external_tools_priority
      { which_ffmpeg := none
        which_ffprobe := none
        path_exists := fun p => decide (p = common_ffmpeg_path)
        resolve_path := id
        winget_base_exists := false
        winget_package_dirs := []
        winget_ffmpeg_glob := fun _ => [] }).2.2.1 rfl rfl (by decide)
  · exact (resolve_external_tools_priority
      { which_ffmpeg := none
        which_ffprobe := some ⟨"/opt/bin", "ffprobe"⟩
        path_exists := fun _ => false
        resolve_path := id
        winget_base_exists := false
        winget_package_dirs := []
        winget_ffmpeg_glob := fun _ => [] }).2.2.2.1 rfl rfl rfl

/-- C10: a host where ffmpeg is found nowhere but `shutil.which` finds
ffprobe makes `_resolve_external_tools` return an absent muxer next to
a present probe: a present probe does not imply a present muxer. -/
theorem resolve_external_tools_probe_without_muxer :
    _resolve_external_tools
      { which_ffmpeg := none
        which_ffprobe := some ⟨"/usr/bin", "ffprobe"⟩
        path_exists := fun _ => false
        resolve_path := id
        winget_base_exists := false
        winget_package_dirs := []
        winget_ffmpeg_glob := fun _ => [] } =
      (none, some ⟨"/usr/bin", "ffprobe"⟩) := rfl

end YtHQ
